import Mathlib

/-!
# Verification of the spotify-controller-bridge core (src/server.js)

Shallow embedding of the state reconciliation and control-dispatch engine of
the bridge.  JavaScript numbers are modelled as exact rationals (`ℚ`) where the
code performs arbitrary arithmetic and as integers (`ℤ`) where the values are
integral by construction; `null`/`undefined` fields are modelled with `Option`.
Every definition is transcribed from the corresponding function in
`src/server.js` (line references in the doc comments).
-/

namespace SpotifyBridge

/-- JavaScript `Math.round` on a finite number: round half towards positive
infinity, i.e. `⌊x + 1/2⌋`. -/
def jsRound (q : ℚ) : ℤ := ⌊q + 1/2⌋

/-- JavaScript `x || d` for a numeric `x` already converted with `Number`:
the default is taken exactly when the number is falsy (here: zero; `NaN` is
outside the rational model). -/
def jsNumOr (q d : ℚ) : ℚ := if q = 0 then d else q

/-- JavaScript `x || d` on integers (used for `lastNonZeroVolume || 50`). -/
def jsIntOr (v d : ℤ) : ℤ := if v = 0 then d else v

/-- JavaScript `String.prototype.includes` for a non-empty search string:
`s.includes(sub)` holds iff `sub` occurs as a contiguous substring of `s`,
i.e. iff `sub` is a prefix of some suffix of `s`. -/
def jsIncludes (s sub : String) : Bool :=
  s.data.tails.any (fun t => sub.data.isPrefixOf t)

/-- Clamp an integer to the volume range, `Math.max(0, Math.min(100, v))`. -/
def clamp100 (v : ℤ) : ℤ := max 0 (min 100 v)

/-! ## Raw upstream snapshot (the shape read by the normalizer)

Only the fields that `mapSpotifyToPlaybackInfo` / `mapSpotifyToState`
actually read are modelled.  `artists` is the list of artist names (the code
reads `item.artists.map(a => a.name)`), `showName` is `item.show.name`,
`albumImages` is the list of `item.album.images[i].url`. -/

/-- `player.device` as read by the normalizer. -/
structure Device where
  name : Option String
  is_active : Option Bool
  volume_percent : Option ℤ
  deriving DecidableEq, Repr

/-- `player.item.album` as read by the normalizer. -/
structure Album where
  name : String
  images : List String
  deriving DecidableEq, Repr

/-- `player.item` as read by the normalizer. -/
structure Item where
  type : String
  name : Option String
  artists : List String
  showName : Option String
  album : Option Album
  duration_ms : Option ℤ
  uri : Option String
  deriving DecidableEq, Repr

/-- A raw playback snapshot from the upstream client (`/me/player`). -/
structure Player where
  item : Option Item
  is_playing : Option Bool
  progress_ms : Option ℤ
  device : Option Device
  repeat_state : Option String
  shuffle_state : Option Bool
  deriving DecidableEq, Repr

/-! ## Output DTOs -/

/-- The display-oriented snapshot produced by `mapSpotifyToPlaybackInfo`
(server.js:36-83).  `playerState` is one of the strings
"Playing" / "Paused" / "Stopped", exactly as in the code. -/
structure PlaybackInfo where
  name : String
  artist : String
  album : String
  duration : ℤ
  playbackPosition : ℚ
  trackId : String
  playerState : String
  albumArtUrl : String
  deviceName : String
  deviceIsActive : Bool
  deriving DecidableEq, Repr

/-- The control-oriented snapshot produced by `mapSpotifyToState`
(server.js:85-106).  The code returns the key `track_id`. -/
structure PlayerState where
  track_id : String
  volume : ℤ
  position : ℚ
  state : String
  isRepeating : Bool
  isShuffling : Bool
  deriving DecidableEq, Repr

/-- `{ playbackInfo, state }`, the unit of broadcast and change comparison
(server.js:108-112). -/
structure StateChangePayload where
  playbackInfo : PlaybackInfo
  state : PlayerState
  deriving DecidableEq, Repr

/-- `mapSpotifyToPlaybackInfo` (server.js:36-83).  The argument is the raw
player snapshot or `none` (JS `null`). -/
def mapSpotifyToPlaybackInfo (player : Option Player) : PlaybackInfo :=
  match player with
  | none =>
      { name := "", artist := "", album := "", duration := 0,
        playbackPosition := 0, trackId := "", playerState := "Stopped",
        albumArtUrl := "", deviceName := "", deviceIsActive := false }
  | some p =>
    match p.item with
    | none =>
        { name := "", artist := "", album := "", duration := 0,
          playbackPosition := 0, trackId := "", playerState := "Stopped",
          albumArtUrl := "", deviceName := "", deviceIsActive := false }
    | some item =>
      let isTrack := item.type = "track"
      let name := item.name.getD ""
      let artist :=
        if isTrack ∧ item.artists ≠ [] then String.intercalate ", " item.artists
        else (item.showName.getD "")
      let album := if isTrack then (item.album.map Album.name).getD "" else ""
      let duration := (item.duration_ms.getD 0)
      let playbackPosition : ℚ := ((p.progress_ms.getD 0 : ℤ) : ℚ) / 1000
      let trackId := item.uri.getD ""
      let playerState :=
        if p.is_playing = some true then "Playing"
        else if p.is_playing = some false ∧ (duration > 0 ∨ playbackPosition > 0)
          then "Paused"
        else "Stopped"
      let albumArtUrl :=
        if isTrack then ((item.album.bind (fun a => a.images.head?)).getD "") else ""
      let deviceName := ((p.device.bind Device.name).getD "")
      let deviceIsActive := ((p.device.bind Device.is_active).getD false)
      { name := name, artist := artist, album := album, duration := duration,
        playbackPosition := playbackPosition, trackId := trackId,
        playerState := playerState, albumArtUrl := albumArtUrl,
        deviceName := deviceName, deviceIsActive := deviceIsActive }

/-- `mapSpotifyToState` (server.js:85-106). -/
def mapSpotifyToState (player : Option Player) : PlayerState :=
  let playbackInfo := mapSpotifyToPlaybackInfo player
  let trackId := playbackInfo.trackId
  let position := playbackInfo.playbackPosition
  let state :=
    if playbackInfo.playerState = "Playing" then "playing"
    else if playbackInfo.playerState = "Paused" then "paused"
    else "stopped"
  let volume := ((player.bind Player.device).bind Device.volume_percent).getD 0
  let isRepeating :=
    match player.bind Player.repeat_state with
    | some r => r ≠ "" ∧ r ≠ "off"
    | none => False
  let isShuffling := ((player.bind Player.shuffle_state).getD false)
  { track_id := trackId, volume := volume, position := position,
    state := state, isRepeating := isRepeating, isShuffling := isShuffling }

/-- `buildStateChangePayload` (server.js:108-112). -/
def buildStateChangePayload (player : Option Player) : StateChangePayload :=
  { playbackInfo := mapSpotifyToPlaybackInfo player,
    state := mapSpotifyToState player }

/-- `payloadEquals` (server.js:114-119).  The code compares
`JSON.stringify` of the `playbackInfo` and `state` components; since every
payload is built by `buildStateChangePayload` (fixed key order, primitive
fields), stringify-equality coincides with structural equality of the two
components, which is how it is modelled here. -/
def payloadEquals (a b : Option StateChangePayload) : Bool :=
  match a, b with
  | none, none => true
  | none, some _ => false
  | some _, none => false
  | some a, some b =>
      decide (a.playbackInfo = b.playbackInfo) && decide (a.state = b.state)

/-- The change-detector decision taken by the poll loop (server.js:134):
broadcast exactly when `!payloadEquals(payload, lastStatePayload)`. -/
def shouldBroadcast (previous : Option StateChangePayload)
    (next : StateChangePayload) : Bool :=
  ! payloadEquals (some next) previous

/-! ## Module environment and mutable state

The handlers in `createServer` close over the module constants
`ALLOW_CONTROL` / `spotify` (whether the upstream client was constructed) and
over the mutable variables `lastStatePayload`, `lastNonZeroVolume`,
`pollTimer`.  They are passed explicitly here. -/

/-- The configuration captured by the closures: the global control-enabled
flag (`ALLOW_CONTROL`, server.js:15) and whether the upstream client was
constructed (`spotify !== null`). -/
structure Env where
  allowControl : Bool
  configured : Bool
  deriving DecidableEq, Repr

/-- The mutable module state read and written by the poll loop
(server.js:23-27). -/
structure Mut where
  lastStatePayload : Option StateChangePayload
  lastNonZeroVolume : ℤ
  pollTimer : Option ℕ
  deriving DecidableEq, Repr

/-- Broadcast / reply events emitted to socket subscribers. -/
inductive Emit where
  | stateChange (payload : StateChangePayload)
  | rampingState (b : Bool)
  | version (s : String)
  | controlStatus (b : Bool)
  deriving DecidableEq, Repr

/-- The `lastNonZeroVolume` update performed on a successful poll tick
(server.js:131-133): reassigned only when the observed volume is `> 0`. -/
def updateLNZV (payload : StateChangePayload) (cur : ℤ) : ℤ :=
  if payload.state.volume > 0 then payload.state.volume else cur

/-- One execution of `pollPlaybackState` (server.js:126-142).  `reply` is the
outcome of the awaited `spotify.getPlaybackState()` call (`.ok none` models a
204 `null` body).  Result: new mutable state, broadcast events, error-log
lines.  The surrounding `try`/`catch` consumes the error, so the function
returns normally on every input. -/
def pollPlaybackState (env : Env) (reply : Except String (Option Player))
    (m : Mut) : Mut × List Emit × List String :=
  if !env.configured then (m, [], [])
  else
    match reply with
    | .error msg =>
        (m, [],
          if msg ≠ "" ∧ ¬ (jsIncludes msg "No active device") then
            ["Poll error: " ++ msg]
          else [])
    | .ok player =>
        let payload := buildStateChangePayload player
        let m1 : Mut := { m with lastNonZeroVolume := updateLNZV payload m.lastNonZeroVolume }
        if payloadEquals (some payload) m1.lastStatePayload then (m1, [], [])
        else ({ m1 with lastStatePayload := some payload },
              [Emit.stateChange payload], [])

/-- Result of the REST `/state` route (server.js:253-263). -/
inductive StateQueryResult where
  | json (payload : StateChangePayload)
  | error500 (msg : String)
  deriving DecidableEq, Repr

/-- The REST `/state` route (server.js:253-263): with no upstream client it
answers the empty payload built from `null`; otherwise it reflects the
outcome of the fresh `getPlaybackState` call. -/
def stateQueryRest (env : Env) (reply : Except String (Option Player)) :
    StateQueryResult :=
  if !env.configured then
    .json { playbackInfo := mapSpotifyToPlaybackInfo none,
            state := mapSpotifyToState none }
  else
    match reply with
    | .ok player => .json (buildStateChangePayload player)
    | .error msg => .error500 msg

/-- The unmute restore target, `lastNonZeroVolume || 50`
(server.js:356 and server.js:431). -/
def unmuteVolume (lastNonZeroVolume : ℤ) : ℤ := jsIntOr lastNonZeroVolume 50

/-- All values `lastNonZeroVolume` can take: initialized to 50
(server.js:27) and only ever reassigned by the poll tick through
`updateLNZV` — these are the only two write sites in the module. -/
inductive ReachLNZV : ℤ → Prop where
  | init : ReachLNZV 50
  | observe (payload : StateChangePayload) (cur : ℤ) :
      ReachLNZV cur → ReachLNZV (updateLNZV payload cur)

/-! ## Volume Ramp Controller (server.js:196-236) -/

/-- The derived parameters of one ramp session (server.js:201-207). -/
structure RampParams where
  startVolume : ℤ
  target : ℤ
  changePerStep : ℤ
  steps : ℤ
  stepDelayMs : ℤ
  deriving DecidableEq, Repr

/-- Parameter derivation in `rampVolume` (server.js:201-207), transcribed
with the JS falsy defaults `Number(x) || d`. -/
def rampParams (startVolume : ℤ) (targetVolume changePercent rampTimeSeconds : ℚ) :
    RampParams :=
  let target := clamp100 (jsRound (jsNumOr targetVolume 0))
  let changePerStep := max 1 (jsRound (jsNumOr changePercent 1))
  let steps0 := ⌈(((|target - startVolume| : ℤ) : ℚ) / (changePerStep : ℚ))⌉
  let steps := if steps0 = 0 then 1 else steps0
  let rampTimeMs := jsNumOr rampTimeSeconds 1 * 1000
  let stepDelayMs := max 100 ⌊rampTimeMs / (steps : ℚ)⌋
  { startVolume := startVolume, target := target, changePerStep := changePerStep,
    steps := steps, stepDelayMs := stepDelayMs }

/-- The parameter derivation exactly as the specification words it
(claim formulas, for comparison with `rampParams`): `stepSize =
max(1, round(changePercent))`, `totalSteps = ceil(|clamped target -
startVolume| / stepSize)` with minimum 1, `stepDelayMs = max(100,
floor(rampTimeSeconds * 1000 / totalSteps))`. -/
def rampParamsClaimed (startVolume : ℤ)
    (targetVolume changePercent rampTimeSeconds : ℚ) : RampParams :=
  let target := clamp100 (jsRound targetVolume)
  let stepSize := max 1 (jsRound changePercent)
  let totalSteps := max 1 ⌈(((|target - startVolume| : ℤ) : ℚ) / (stepSize : ℚ))⌉
  let stepDelayMs := max 100 ⌊rampTimeSeconds * 1000 / (totalSteps : ℚ)⌋
  { startVolume := startVolume, target := target, changePerStep := stepSize,
    steps := totalSteps, stepDelayMs := stepDelayMs }

/-- The volume issued by the ramp tick at step counter `k`
(server.js:215): `round(startVolume + (target - startVolume) * (step / steps))`
clamped to [0,100]. -/
def tickVolume (p : RampParams) (k : ℕ) : ℤ :=
  clamp100 (jsRound ((p.startVolume : ℚ) +
    ((p.target - p.startVolume : ℤ) : ℚ) * ((k : ℚ) / (p.steps : ℚ))))

/-- Observable events of a ramp session, in order of occurrence. -/
inductive RampEvent where
  | setVol (v : ℤ)
  | emitRamping (b : Bool)
  | forcePoll
  deriving DecidableEq, Repr

/-- Project a `setVol` event to its volume. -/
def evSetVol : RampEvent → Option ℤ
  | .setVol v => some v
  | _ => none

/-- The tick recursion of `rampVolume` (server.js:214-232), as the event
trace it produces from step counter `step` up to and including the first
completing tick (the one with `step >= steps`, which emits the ramping-off
event and forces a reconciliation poll).  `fuel` bounds the recursion; the
caller supplies `steps + 1`, which always reaches completion. -/
def runTicks (p : RampParams) : ℕ → ℕ → List RampEvent
  | _, 0 => []
  | step, fuel + 1 =>
      let ev := RampEvent.setVol (tickVolume p step)
      if p.steps ≤ (step : ℤ) then
        [ev, .emitRamping false, .forcePoll]
      else
        ev :: runTicks p (step + 1) fuel

/-- The full event trace of one ramp session run to completion
(server.js:209-235): the ramping-on broadcast, then the synchronous first
tick and the interval ticks through the completing one. -/
def rampRun (p : RampParams) : List RampEvent :=
  .emitRamping true :: runTicks p 0 (p.steps.toNat + 1)

/-! ## Ramp timer machine (for the timer-uniqueness claim)

`rampVolume` manages an interval timer through the shared variable
`rampIntervalId`.  The machine below tracks the set of interval timers that
are actually live at the host level (`live`), next to the single handle
variable, transcribing exactly the `clearInterval` / `setInterval` calls and
assignments in server.js:196-236. -/

/-- One live interval timer together with the closure state of its tick
function (the `step` counter). -/
structure RampTimerEntry where
  tid : ℕ
  p : RampParams
  step : ℕ
  deriving DecidableEq, Repr

/-- The timer-level state of the ramp controller. -/
structure RampMachine where
  nextTid : ℕ
  live : List RampTimerEntry
  rampIntervalId : Option ℕ
  rampingState : Bool
  trace : List RampEvent
  deriving DecidableEq, Repr

/-- One firing of the tick closure of interval `i` (server.js:214-232).
A timer that has been cleared (not in `live`) never fires.  On the
completing tick the code assigns `rampIntervalId = null` and emits the
ramping-off event, but issues no `clearInterval` — so the entry stays in
`live`. -/
def fireTick (i : ℕ) (mc : RampMachine) : RampMachine :=
  match mc.live.find? (fun t => t.tid == i) with
  | none => mc
  | some t =>
      let tr := mc.trace ++ [RampEvent.setVol (tickVolume t.p t.step)]
      if t.p.steps ≤ (t.step : ℤ) then
        { mc with
            trace := tr ++ [.emitRamping false, .forcePoll],
            rampIntervalId := none,
            rampingState := false }
      else
        { mc with
            trace := tr,
            live := mc.live.map (fun u => if u.tid == i then { u with step := u.step + 1 } else u) }

/-- `rampVolume` at the timer level (server.js:196-236): clear the interval
named by `rampIntervalId` if any, derive the parameters, broadcast
ramping-on, schedule a fresh interval, and run the synchronous first tick. -/
def rampStartM (startVolume : ℤ) (targetVolume changePercent rampTimeSeconds : ℚ)
    (mc : RampMachine) : RampMachine :=
  let mc :=
    match mc.rampIntervalId with
    | some i =>
        { mc with live := mc.live.filter (fun t => t.tid ≠ i), rampIntervalId := none }
    | none => mc
  let p := rampParams startVolume targetVolume changePercent rampTimeSeconds
  let tid := mc.nextTid
  let mc :=
    { mc with
        rampingState := true,
        trace := mc.trace ++ [.emitRamping true],
        nextTid := tid + 1,
        live := mc.live ++ [⟨tid, p, 0⟩],
        rampIntervalId := some tid }
  fireTick tid mc

/-- The ramp controller before any ramp command (server.js:25-26). -/
def rampMachine0 : RampMachine :=
  { nextTid := 0, live := [], rampIntervalId := none, rampingState := false,
    trace := [] }

/-! ## Control Dispatcher (server.js:265-361 REST, server.js:365-436 socket) -/

/-- A call issued to the Upstream Client.  `setVolume` takes the exact value
passed (the client clamps and rounds internally; the REST route rounds before
calling while the socket handler only clamps). -/
inductive UpstreamCall where
  | getPlaybackState
  | play
  | pause
  | next
  | previous
  | seek (positionMs : ℚ)
  | setVolume (v : ℚ)
  | setRepeat (s : String)
  | setShuffle (b : Bool)
  | playTrack (t : String)
  | playTrackInContext (t c : String)
  deriving DecidableEq, Repr

/-- The REST control commands (one per GET route, server.js:271-361). -/
inductive Cmd where
  | play
  | pause
  | playToggle
  | next
  | previous
  | playTrack (track : String)
  | playTrackInContext (track context : String)
  | movePlayerPosition (seconds : ℚ)
  | setPlayerPosition (seconds : ℚ)
  | volumeUp
  | volumeDown
  | setVolume (volume : ℚ)
  | rampVolume (volume changePercent rampTime : ℚ)
  | mute
  | unmute
  | repeatOn
  | repeatOff
  | shuffleOn
  | shuffleOff
  deriving DecidableEq, Repr

/-- How a REST control request is answered: the three policy rejections
(HTTP 403 "Control disabled", 503 "Spotify not configured", 409 "Volume
ramping in progress"), acceptance (200 "OK"), or a surfaced upstream error
(HTTP 500 with the error message). -/
inductive RestStatus where
  | controlDisabled
  | notConfigured
  | rampInProgress
  | accepted
  | upstreamError (msg : String)
  deriving DecidableEq, Repr

/-- The observable outcome of one REST control request: its response class
and the Upstream Client calls issued while handling it. -/
structure RestOutcome where
  status : RestStatus
  calls : List UpstreamCall
  deriving DecidableEq, Repr

/-- `restControl` (server.js:265-269): reject with 403 before anything else
when control is disabled, with 503 when no upstream client exists, otherwise
run the upstream call(s); `fail` is the outcome of that fallible call. -/
def restControl (env : Env) (calls : List UpstreamCall) (fail : Option String) :
    RestOutcome :=
  if !env.allowControl then ⟨.controlDisabled, []⟩
  else if !env.configured then ⟨.notConfigured, []⟩
  else
    match fail with
    | some e => ⟨.upstreamError e, calls⟩
    | none => ⟨.accepted, calls⟩

/-- The current position used for relative seek (server.js:301-302). -/
def lastPosition (m : Mut) : ℚ :=
  (m.lastStatePayload.map (fun p => p.state.position)).getD 0

/-- The current volume used for relative volume (server.js:318-319,
default 50). -/
def lastVolume50 (m : Mut) : ℤ :=
  (m.lastStatePayload.map (fun p => p.state.volume)).getD 50

/-- One REST control request (the GET routes, server.js:271-361), given the
environment, the current ramping flag, the mutable state, an oracle for the
upstream read performed by `playToggle`, and an oracle `fail` for whether the
eventual upstream call fails.  Transcribed guard-for-guard from each route. -/
def restDispatch (env : Env) (ramping : Bool) (m : Mut)
    (toggleReply : Except String (Option Player)) (fail : Option String) :
    Cmd → RestOutcome
  | .play => restControl env [.play] fail
  | .pause => restControl env [.pause] fail
  | .next => restControl env [.next] fail
  | .previous => restControl env [.previous] fail
  | .playTrack t => restControl env [.playTrack t] fail
  | .playTrackInContext t c => restControl env [.playTrackInContext t c] fail
  | .playToggle =>
      if !env.allowControl then ⟨.controlDisabled, []⟩
      else if !env.configured then ⟨.notConfigured, []⟩
      else
        match toggleReply with
        | .error e => ⟨.upstreamError e, [.getPlaybackState]⟩
        | .ok player =>
            let playing := (player.map (fun p => p.is_playing.getD false)).getD false
            match fail with
            | some e => ⟨.upstreamError e, [.getPlaybackState, if playing then .pause else .play]⟩
            | none => ⟨.accepted, [.getPlaybackState, if playing then .pause else .play]⟩
  | .movePlayerPosition seconds =>
      if !env.allowControl then ⟨.controlDisabled, []⟩
      else if !env.configured then ⟨.notConfigured, []⟩
      else
        let delta := jsNumOr seconds 0
        let positionMs := max 0 ((lastPosition m + delta) * 1000)
        restControl env [.seek positionMs] fail
  | .setPlayerPosition seconds =>
      let sec := max 0 (jsNumOr seconds 0)
      restControl env [.seek (sec * 1000)] fail
  | .volumeUp =>
      if !env.allowControl then ⟨.controlDisabled, []⟩
      else if !env.configured then ⟨.notConfigured, []⟩
      else if ramping then ⟨.rampInProgress, []⟩
      else restControl env [.setVolume ((min 100 (lastVolume50 m + 10) : ℤ) : ℚ)] fail
  | .volumeDown =>
      if !env.allowControl then ⟨.controlDisabled, []⟩
      else if !env.configured then ⟨.notConfigured, []⟩
      else if ramping then ⟨.rampInProgress, []⟩
      else restControl env [.setVolume ((max 0 (lastVolume50 m - 10) : ℤ) : ℚ)] fail
  | .setVolume volume =>
      if ramping then ⟨.rampInProgress, []⟩
      else
        let vol := clamp100 (jsRound (jsNumOr volume 0))
        restControl env [.setVolume (vol : ℚ)] fail
  | .rampVolume _ _ _ =>
      if !env.allowControl then ⟨.controlDisabled, []⟩
      else if !env.configured then ⟨.notConfigured, []⟩
      else ⟨.accepted, []⟩
  | .mute =>
      if ramping then ⟨.rampInProgress, []⟩
      else restControl env [.setVolume 0] fail
  | .unmute =>
      if ramping then ⟨.rampInProgress, []⟩
      else restControl env [.setVolume ((unmuteVolume m.lastNonZeroVolume : ℤ) : ℚ)] fail
  | .repeatOn => restControl env [.setRepeat "context"] fail
  | .repeatOff => restControl env [.setRepeat "off"] fail
  | .shuffleOn => restControl env [.setShuffle true] fail
  | .shuffleOff => restControl env [.setShuffle false] fail

/-- The socket events the server listens on (server.js:371-435). -/
inductive SCmd where
  | version
  | control_status
  | state
  | play
  | pause
  | playToggle
  | next
  | previous
  | movePlayerPosition (seconds : ℚ)
  | setPlayerPosition (seconds : ℚ)
  | playtrack (track : String)
  | playtrackincontext (track context : String)
  | volumeUp
  | volumeDown
  | setVolume (volume : ℚ)
  | rampVolume (volume changePercent rampTime : ℚ)
  | mute
  | unmute
  | repeatOn
  | repeatOff
  | shuffleOn
  | shuffleOff
  deriving DecidableEq, Repr

/-- Whether a socket event is a control command (everything except the three
pure queries). -/
def SCmd.isControl : SCmd → Bool
  | .version => false
  | .control_status => false
  | .state => false
  | _ => true

/-- Whether a socket event is a direct volume command. -/
def SCmd.isDirectVolume : SCmd → Bool
  | .volumeUp => true
  | .volumeDown => true
  | .setVolume _ => true
  | .mute => true
  | .unmute => true
  | _ => false

/-- Whether a REST command is a direct volume command (volume-set, volume-up,
volume-down, mute, unmute). -/
def Cmd.isDirectVolume : Cmd → Bool
  | .volumeUp => true
  | .volumeDown => true
  | .setVolume _ => true
  | .mute => true
  | .unmute => true
  | _ => false

/-- The observable outcome of one socket event: the (possibly changed)
mutable state, the Upstream Client calls issued, and everything emitted back
(to the requesting socket or broadcast). -/
structure SocketOutcome where
  m : Mut
  calls : List UpstreamCall
  emits : List Emit
  deriving DecidableEq, Repr

/-- One socket event handler (server.js:371-435), transcribed
guard-for-guard.  `reply` is the oracle for any `getPlaybackState` performed
while handling (the `state` re-poll or the `playToggle` read); rejected
commands return without reply, calls or state change. -/
def socketDispatch (env : Env) (ramping : Bool) (m : Mut)
    (reply : Except String (Option Player)) : SCmd → SocketOutcome
  | .version => ⟨m, [], [.version "1.0.0-bridge"]⟩
  | .control_status => ⟨m, [], [.controlStatus env.allowControl]⟩
  | .state =>
      match m.lastStatePayload with
      | some p => ⟨m, [], [.stateChange p]⟩
      | none =>
          let r := pollPlaybackState env reply m
          ⟨r.1, if env.configured then [.getPlaybackState] else [], r.2.1⟩
  | .play =>
      if env.allowControl ∧ env.configured then ⟨m, [.play], []⟩ else ⟨m, [], []⟩
  | .pause =>
      if env.allowControl ∧ env.configured then ⟨m, [.pause], []⟩ else ⟨m, [], []⟩
  | .playToggle =>
      if ¬ (env.allowControl ∧ env.configured) then ⟨m, [], []⟩
      else
        match reply with
        | .error _ => ⟨m, [.getPlaybackState], []⟩
        | .ok player =>
            let playing := (player.map (fun p => p.is_playing.getD false)).getD false
            ⟨m, [.getPlaybackState, if playing then .pause else .play], []⟩
  | .next =>
      if env.allowControl ∧ env.configured then ⟨m, [.next], []⟩ else ⟨m, [], []⟩
  | .previous =>
      if env.allowControl ∧ env.configured then ⟨m, [.previous], []⟩ else ⟨m, [], []⟩
  | .movePlayerPosition seconds =>
      if ¬ (env.allowControl ∧ env.configured) then ⟨m, [], []⟩
      else
        let delta := jsNumOr seconds 0
        let positionMs := max 0 ((lastPosition m + delta) * 1000)
        ⟨m, [.seek positionMs], []⟩
  | .setPlayerPosition seconds =>
      if ¬ (env.allowControl ∧ env.configured) then ⟨m, [], []⟩
      else
        let sec := max 0 (jsNumOr seconds 0)
        ⟨m, [.seek (sec * 1000)], []⟩
  | .playtrack t =>
      if env.allowControl ∧ env.configured then ⟨m, [.playTrack t], []⟩ else ⟨m, [], []⟩
  | .playtrackincontext t c =>
      if ¬ (env.allowControl ∧ env.configured) then ⟨m, [], []⟩
      else ⟨m, [.playTrackInContext t c], []⟩
  | .volumeUp =>
      if ramping ∨ ¬ env.allowControl ∨ ¬ env.configured then ⟨m, [], []⟩
      else ⟨m, [.setVolume ((min 100 (lastVolume50 m + 10) : ℤ) : ℚ)], []⟩
  | .volumeDown =>
      if ramping ∨ ¬ env.allowControl ∨ ¬ env.configured then ⟨m, [], []⟩
      else ⟨m, [.setVolume ((max 0 (lastVolume50 m - 10) : ℤ) : ℚ)], []⟩
  | .setVolume volume =>
      if ramping ∨ ¬ env.allowControl ∨ ¬ env.configured then ⟨m, [], []⟩
      else ⟨m, [.setVolume (max 0 (min 100 (jsNumOr volume 0)))], []⟩
  | .rampVolume _ _ _ =>
      if ¬ (env.allowControl ∧ env.configured) then ⟨m, [], []⟩
      else ⟨m, [], []⟩
  | .mute =>
      if ¬ ramping ∧ env.allowControl ∧ env.configured then ⟨m, [.setVolume 0], []⟩
      else ⟨m, [], []⟩
  | .unmute =>
      if ¬ ramping ∧ env.allowControl ∧ env.configured then
        ⟨m, [.setVolume ((unmuteVolume m.lastNonZeroVolume : ℤ) : ℚ)], []⟩
      else ⟨m, [], []⟩
  | .repeatOn =>
      if env.allowControl ∧ env.configured then ⟨m, [.setRepeat "context"], []⟩ else ⟨m, [], []⟩
  | .repeatOff =>
      if env.allowControl ∧ env.configured then ⟨m, [.setRepeat "off"], []⟩ else ⟨m, [], []⟩
  | .shuffleOn =>
      if env.allowControl ∧ env.configured then ⟨m, [.setShuffle true], []⟩ else ⟨m, [], []⟩
  | .shuffleOff =>
      if env.allowControl ∧ env.configured then ⟨m, [.setShuffle false], []⟩ else ⟨m, [], []⟩

/-! ## Helper lemmas -/

/-- A nonempty tail determines the last element of a cons. -/
lemma getLast?_cons_of_some {α : Type} {l : List α} {a x : α}
    (h : l.getLast? = some x) : (a :: l).getLast? = some x := by
  cases l with
  | nil => simp at h
  | cons b t => rw [List.getLast?_cons_cons]; exact h

/-! ## Theorems -/

/-- The all-empty/Stopped display shape, the object literal returned by
`mapSpotifyToPlaybackInfo` for `null`/item-less input (server.js:38-49). -/
def emptyPlaybackInfo : PlaybackInfo :=
  { name := "", artist := "", album := "", duration := 0,
    playbackPosition := 0, trackId := "", playerState := "Stopped",
    albumArtUrl := "", deviceName := "", deviceIsActive := false }

/-- The fully zeroed control-state shape produced from the `null` snapshot. -/
def emptyPlayerState : PlayerState :=
  { track_id := "", volume := 0, position := 0, state := "stopped",
    isRepeating := false, isShuffling := false }

/-- C4 counterexample input: a snapshot with no playable item but with
`is_playing = false` and `progress_ms > 0`. -/
def playerNoItemPausedFlags : Player :=
  { item := none, is_playing := some false, progress_ms := some 5000,
    device := none, repeat_state := none, shuffle_state := none }

/-- C4 (counterexample): the claim quantifies over every snapshot with
`is_playing = false` and (`duration_ms > 0` or `progress_ms > 0`) and demands
`playerState = Paused`; this concrete snapshot satisfies that premise (it has
`progress_ms = 5000 > 0`) yet lacks a playable item, so the normalizer
returns "Stopped", not "Paused". -/
theorem pausedClaimCounterexample :
    playerNoItemPausedFlags.is_playing = some false
    ∧ 0 < playerNoItemPausedFlags.progress_ms.getD 0
    ∧ (mapSpotifyToPlaybackInfo (some playerNoItemPausedFlags)).playerState = "Stopped"
    ∧ (mapSpotifyToPlaybackInfo (some playerNoItemPausedFlags)).playerState ≠ "Paused" := by
  refine ⟨rfl, by norm_num [playerNoItemPausedFlags], ?_, ?_⟩ <;>
    simp [mapSpotifyToPlaybackInfo, playerNoItemPausedFlags]

/-- C4 (amended): for every snapshot that carries a playable item, has
`is_playing = false` and (`duration_ms > 0` or `progress_ms > 0`), the
normalizer yields `playerState = "Paused"`; and for every snapshot lacking a
playable item (including the `null` snapshot) the result is `"Stopped"`
regardless of the other upstream flags. -/
theorem pausedStoppedClassification :
    (∀ (p : Player) (it : Item), p.item = some it →
        p.is_playing = some false →
        (0 < it.duration_ms.getD 0 ∨ 0 < p.progress_ms.getD 0) →
        (mapSpotifyToPlaybackInfo (some p)).playerState = "Paused")
    ∧ (∀ p : Player, p.item = none →
        (mapSpotifyToPlaybackInfo (some p)).playerState = "Stopped")
    ∧ (mapSpotifyToPlaybackInfo none).playerState = "Stopped" := by
  refine ⟨?_, ?_, rfl⟩
  · intro p it hitem hplaying hpos
    have hcond : 0 < it.duration_ms.getD 0 ∨
        (0 : ℚ) < ((p.progress_ms.getD 0 : ℤ) : ℚ) / 1000 := by
      rcases hpos with h | h
      · exact Or.inl h
      · exact Or.inr (div_pos (by exact_mod_cast h) (by norm_num))
    simp only [mapSpotifyToPlaybackInfo, hitem, hplaying]
    simp [hcond]
    intro hd
    rcases hpos with h | h
    · omega
    · exact h
  · intro p hitem
    simp [mapSpotifyToPlaybackInfo, hitem]

/-- C4 witness: the amended Paused branch at a concrete paused snapshot. -/
theorem pausedStoppedClassification_witness :
    (mapSpotifyToPlaybackInfo (some
      { item := some { type := "track", name := some "song", artists := ["a"],
                       showName := none, album := none, duration_ms := some 180000,
                       uri := some "spotify:track:x" },
        is_playing := some false, progress_ms := some 0,
        device := none, repeat_state := none,
        shuffle_state := none })).playerState = "Paused" :=
  pausedStoppedClassification.1
    { item := some { type := "track", name := some "song", artists := ["a"],
                     showName := none, album := none, duration_ms := some 180000,
                     uri := some "spotify:track:x" },
      is_playing := some false, progress_ms := some 0,
      device := none, repeat_state := none, shuffle_state := none }
    { type := "track", name := some "song", artists := ["a"], showName := none,
      album := none, duration_ms := some 180000, uri := some "spotify:track:x" }
    rfl rfl (Or.inl (by norm_num))

/-- C5 counterexample input: no playable item, but a device reporting
volume 70 and active repeat/shuffle flags. -/
def playerNoItemLoudDevice : Player :=
  { item := none, is_playing := some false, progress_ms := none,
    device := some { name := some "Kitchen", is_active := some true,
                     volume_percent := some 70 },
    repeat_state := some "context", shuffle_state := some true }

/-- C5 (counterexample): the claim demands that every item-lacking input maps
to the all-zeroed shape with the control-state sibling at volume 0; on this
concrete input the builder keeps the device volume 70 (and the repeat and
shuffle flags), so the control-state sibling is not zeroed. -/
theorem normalizeVolumeCounterexample :
    playerNoItemLoudDevice.item = none
    ∧ (buildStateChangePayload (some playerNoItemLoudDevice)).state.volume = 70
    ∧ (buildStateChangePayload (some playerNoItemLoudDevice)).state.volume ≠ 0
    ∧ (buildStateChangePayload (some playerNoItemLoudDevice)).state.isRepeating = true := by
  refine ⟨rfl, ?_, ?_, ?_⟩ <;>
    simp [buildStateChangePayload, mapSpotifyToState, mapSpotifyToPlaybackInfo,
      playerNoItemLoudDevice]

/-- C5 (amended): `normalize` is a total function (it cannot throw);
on the `null` snapshot it returns the fully empty/Stopped/zeroed payload,
volume 0 included; on every non-null snapshot lacking a playable item the
`playbackInfo` half is the all-empty/Stopped shape and the control-state
sibling has `state = "stopped"`, empty `track_id`, `position = 0`, while its
`volume`, `isRepeating` and `isShuffling` reflect the snapshot's device and
flags. -/
theorem normalizeEmptyShapes :
    buildStateChangePayload none =
      { playbackInfo := emptyPlaybackInfo, state := emptyPlayerState }
    ∧ ∀ p : Player, p.item = none →
        (buildStateChangePayload (some p)).playbackInfo = emptyPlaybackInfo
        ∧ (buildStateChangePayload (some p)).state.track_id = ""
        ∧ (buildStateChangePayload (some p)).state.position = 0
        ∧ (buildStateChangePayload (some p)).state.state = "stopped"
        ∧ (buildStateChangePayload (some p)).state.volume =
            ((p.device.bind Device.volume_percent).getD 0) := by
  refine ⟨rfl, ?_⟩
  intro p hitem
  refine ⟨?_, ?_, ?_, ?_, ?_⟩ <;>
    simp [buildStateChangePayload, mapSpotifyToState, mapSpotifyToPlaybackInfo,
      emptyPlaybackInfo, hitem]

/-- C5 witness: the amended statement applied at the concrete item-lacking
snapshot with a loud device. -/
theorem normalizeEmptyShapes_witness :
    (buildStateChangePayload (some playerNoItemLoudDevice)).state.state = "stopped"
    ∧ (buildStateChangePayload (some playerNoItemLoudDevice)).state.volume =
        ((playerNoItemLoudDevice.device.bind Device.volume_percent).getD 0) :=
  ⟨(normalizeEmptyShapes.2 playerNoItemLoudDevice rfl).2.2.2.1,
   (normalizeEmptyShapes.2 playerNoItemLoudDevice rfl).2.2.2.2⟩

/-- C7: a poll tick whose upstream read fails is skipped atomically: the
mutable state (retained payload, `lastNonZeroVolume`, the interval handle)
is untouched, nothing is broadcast, and when the error message contains
"No active device" nothing is logged either.  The catch block consumes the
error, so the tick function returns normally on every input. -/
theorem pollFailureSkipsTick (a : Bool) (msg : String) (m : Mut) :
    (pollPlaybackState ⟨a, true⟩ (.error msg) m).1 = m
    ∧ (pollPlaybackState ⟨a, true⟩ (.error msg) m).2.1 = []
    ∧ (pollPlaybackState ⟨a, true⟩ (.error msg) m).1.lastStatePayload = m.lastStatePayload
    ∧ (pollPlaybackState ⟨a, true⟩ (.error msg) m).1.lastNonZeroVolume = m.lastNonZeroVolume
    ∧ (pollPlaybackState ⟨a, true⟩ (.error msg) m).1.pollTimer = m.pollTimer
    ∧ (jsIncludes msg "No active device" = true →
        (pollPlaybackState ⟨a, true⟩ (.error msg) m).2.2 = []) := by
  refine ⟨rfl, rfl, rfl, rfl, rfl, ?_⟩
  intro hinc
  simp [pollPlaybackState, hinc]

/-- C7 witness: the skipped tick at a concrete state and the benign
"No active device" message, with the log-suppression hypothesis
discharged by evaluation. -/
theorem pollFailureSkipsTick_witness :
    (pollPlaybackState ⟨true, true⟩
        (.error "Spotify API 404: No active device found") ⟨none, 50, some 7⟩).1 =
      ⟨none, 50, some 7⟩
    ∧ (pollPlaybackState ⟨true, true⟩
        (.error "Spotify API 404: No active device found") ⟨none, 50, some 7⟩).2.2 = [] :=
  ⟨(pollFailureSkipsTick true "Spotify API 404: No active device found"
      ⟨none, 50, some 7⟩).1,
   (pollFailureSkipsTick true "Spotify API 404: No active device found"
      ⟨none, 50, some 7⟩).2.2.2.2.2 (by decide)⟩

/-- C8: the change detector broadcasts exactly when there is no previous
payload or the structural comparison of the `playbackInfo` and `state`
components differs somewhere; in particular a payload compared against a
structurally identical copy of itself never broadcasts. -/
theorem shouldBroadcastIff :
    ∀ (previous : Option StateChangePayload) (next : StateChangePayload),
      (shouldBroadcast previous next = true ↔
        previous = none ∨ ∃ q, previous = some q ∧
          (q.playbackInfo ≠ next.playbackInfo ∨ q.state ≠ next.state))
      ∧ ∀ p : StateChangePayload, shouldBroadcast (some p) p = false := by
  intro previous next
  constructor
  · cases previous with
    | none => simp [shouldBroadcast, payloadEquals]
    | some q =>
        constructor
        · intro h
          refine Or.inr ⟨q, rfl, ?_⟩
          by_contra hc
          push_neg at hc
          simp [shouldBroadcast, payloadEquals, hc.1, hc.2] at h
        · rintro (h | ⟨q', hq', hne⟩)
          · simp at h
          · injection hq' with hqq
            subst hqq
            rcases hne with h | h <;>
              simp [shouldBroadcast, payloadEquals, Ne.symm h]
  · intro p
    simp [shouldBroadcast, payloadEquals]

/-- C10: in every reachable state `lastNonZeroVolume` is strictly positive
(initialized to 50, reassigned only by the poll tick when the observed
volume is positive); hence the `|| 50` fallback is never exercised after
construction and every accepted unmute command issues `setVolume` with the
strictly positive target `lastNonZeroVolume` itself. -/
theorem lastNonZeroVolumePositive :
    ∀ v : ℤ, ReachLNZV v →
      0 < v
      ∧ unmuteVolume v = v
      ∧ 0 < unmuteVolume v
      ∧ ∀ (m : Mut) (tr : Except String (Option Player)),
          m.lastNonZeroVolume = v →
          restDispatch ⟨true, true⟩ false m tr none .unmute =
            ⟨.accepted, [.setVolume ((v : ℤ) : ℚ)]⟩ := by
  intro v hreach
  have hpos : 0 < v := by
    induction hreach with
    | init => norm_num
    | observe payload cur _ ih =>
        unfold updateLNZV
        split
        · omega
        · exact ih
  have hunmute : unmuteVolume v = v := by
    unfold unmuteVolume jsIntOr
    split
    · omega
    · rfl
  refine ⟨hpos, hunmute, by rw [hunmute]; exact hpos, ?_⟩
  intro m tr hm
  simp [restDispatch, restControl, hm, hunmute]

/-- C3 (counterexample): the claim demands that with control disabled every
inbound control command — on either transport — receives a rejection signal
distinct from upstream errors; the socket `play` handler with control
disabled ignores the command without emitting anything to its caller, so no
rejection is signalled (though, as the claim also demands, no upstream call
is issued). -/
theorem socketControlDisabledSilent :
    (socketDispatch ⟨false, true⟩ false ⟨none, 50, none⟩ (.ok none) .play).emits = []
    ∧ (socketDispatch ⟨false, true⟩ false ⟨none, 50, none⟩ (.ok none) .play).calls = []
    ∧ (socketDispatch ⟨false, true⟩ false ⟨none, 50, none⟩ (.ok none) .play).m =
        ⟨none, 50, none⟩ :=
  ⟨rfl, rfl, rfl⟩

/-- C3 (amended): with the control-enabled flag false, every REST control
command is answered with a policy rejection distinct from upstream errors
(403 "Control disabled", or 409 when a ramp is also active) and no Upstream
Client call is issued; every socket control command is dropped silently —
no upstream call, no reply, no state change; and state queries, polling and
broadcasts are unaffected by the flag. -/
theorem controlDisabledRejection :
    (∀ (conf ramping : Bool) (m : Mut) (tr : Except String (Option Player))
        (fail : Option String) (cmd : Cmd),
        (restDispatch ⟨false, conf⟩ ramping m tr fail cmd).calls = []
        ∧ ((restDispatch ⟨false, conf⟩ ramping m tr fail cmd).status = .controlDisabled
            ∨ (restDispatch ⟨false, conf⟩ ramping m tr fail cmd).status = .rampInProgress))
    ∧ (∀ (conf ramping : Bool) (m : Mut) (reply : Except String (Option Player))
        (c : SCmd), c.isControl = true →
        (socketDispatch ⟨false, conf⟩ ramping m reply c).calls = []
        ∧ (socketDispatch ⟨false, conf⟩ ramping m reply c).emits = []
        ∧ (socketDispatch ⟨false, conf⟩ ramping m reply c).m = m)
    ∧ (∀ (a b conf : Bool) (reply : Except String (Option Player)) (m : Mut),
        pollPlaybackState ⟨a, conf⟩ reply m = pollPlaybackState ⟨b, conf⟩ reply m
        ∧ stateQueryRest ⟨a, conf⟩ reply = stateQueryRest ⟨b, conf⟩ reply
        ∧ (socketDispatch ⟨a, conf⟩ false m reply .state).emits =
            (socketDispatch ⟨b, conf⟩ false m reply .state).emits) := by
  refine ⟨?_, ?_, ?_⟩
  · intro conf ramping m tr fail cmd
    cases cmd <;> cases ramping <;> simp [restDispatch, restControl]
  · intro conf ramping m reply c hc
    cases c <;> simp_all [socketDispatch, SCmd.isControl]
  · intro a b conf reply m
    exact ⟨rfl, rfl, rfl⟩

/-- C3 witness: the amended statement at the socket `pause` command with
control disabled, the control-command hypothesis discharged by
evaluation. -/
theorem controlDisabledRejection_witness :
    (socketDispatch ⟨false, true⟩ false ⟨none, 50, none⟩ (.ok none) .pause).calls = []
    ∧ (socketDispatch ⟨false, true⟩ false ⟨none, 50, none⟩ (.ok none) .pause).emits = [] :=
  ⟨(controlDisabledRejection.2.1 true false ⟨none, 50, none⟩ (.ok none) .pause rfl).1,
   (controlDisabledRejection.2.1 true false ⟨none, 50, none⟩ (.ok none) .pause rfl).2.1⟩

/-- C6 (counterexample): the claim demands that every direct volume command
arriving during an active ramp is rejected with a ramp-in-progress signal;
the socket `setVolume` handler during a ramp drops the command without
emitting anything to its caller, so no such signal exists (though no
upstream call is issued either). -/
theorem socketVolumeDuringRampSilent :
    (socketDispatch ⟨true, true⟩ true ⟨none, 50, none⟩ (.ok none) (.setVolume 30)).emits = []
    ∧ (socketDispatch ⟨true, true⟩ true ⟨none, 50, none⟩ (.ok none) (.setVolume 30)).calls = [] :=
  ⟨rfl, rfl⟩

/-- C6 (amended): while a ramp is active, every REST direct volume command
(volume-set, volume-up, volume-down, mute, unmute) is rejected with the
409 ramp-in-progress response and no Upstream Client call (control enabled
and upstream configured, which is the only way a ramp can be active); every
socket direct volume command during a ramp is dropped silently with no
upstream call and no reply. -/
theorem rampRejectsDirectVolume :
    (∀ (m : Mut) (tr : Except String (Option Player)) (fail : Option String)
        (cmd : Cmd), cmd.isDirectVolume = true →
        restDispatch ⟨true, true⟩ true m tr fail cmd =
          ⟨.rampInProgress, []⟩)
    ∧ (∀ (env : Env) (m : Mut) (reply : Except String (Option Player))
        (c : SCmd), c.isDirectVolume = true →
        (socketDispatch env true m reply c).calls = []
        ∧ (socketDispatch env true m reply c).emits = []) := by
  constructor
  · intro m tr fail cmd hc
    cases cmd <;> simp_all [restDispatch, Cmd.isDirectVolume]
  · intro env m reply c hc
    cases c <;> simp_all [socketDispatch, SCmd.isDirectVolume]

/-- C6 witness: the amended statement at a concrete REST mute during a
ramp. -/
theorem rampRejectsDirectVolume_witness :
    restDispatch ⟨true, true⟩ true ⟨none, 50, none⟩ (.ok none) none .mute =
      ⟨.rampInProgress, []⟩ :=
  rampRejectsDirectVolume.1 ⟨none, 50, none⟩ (.ok none) none .mute rfl

/-- C9 (counterexample): the claim demands that with no upstream client a
state query returns the empty/Stopped payload; the socket `state` query
with no retained payload and no upstream client replies with nothing at
all (the internal poll returns immediately), so the caller receives no
payload. -/
theorem socketStateNotConfiguredSilent :
    (socketDispatch ⟨true, false⟩ false ⟨none, 50, none⟩ (.ok none) .state).emits = []
    ∧ (socketDispatch ⟨true, false⟩ false ⟨none, 50, none⟩ (.ok none) .state).calls = [] :=
  ⟨rfl, rfl⟩

/-- C9 (amended): with no upstream client constructed, the REST state query
answers the empty/Stopped payload (never an error, for any hypothetical
reply); every REST control command (control enabled, no ramp can be active)
is answered 503 "Spotify not configured" with no upstream call; every
socket control command is dropped silently; and the socket state query with
no retained payload replies with nothing.  All handlers return normally, so
nothing crashes. -/
theorem notConfiguredBehavior :
    (∀ (a : Bool) (reply : Except String (Option Player)),
        stateQueryRest ⟨a, false⟩ reply =
          .json { playbackInfo := emptyPlaybackInfo, state := emptyPlayerState })
    ∧ (∀ (m : Mut) (tr : Except String (Option Player)) (fail : Option String)
        (cmd : Cmd),
        (restDispatch ⟨true, false⟩ false m tr fail cmd).status = .notConfigured
        ∧ (restDispatch ⟨true, false⟩ false m tr fail cmd).calls = [])
    ∧ (∀ (a ramping : Bool) (m : Mut) (reply : Except String (Option Player))
        (c : SCmd), c.isControl = true →
        (socketDispatch ⟨a, false⟩ ramping m reply c).calls = []
        ∧ (socketDispatch ⟨a, false⟩ ramping m reply c).emits = []
        ∧ (socketDispatch ⟨a, false⟩ ramping m reply c).m = m)
    ∧ (∀ (a : Bool) (lnzv : ℤ) (pt : Option ℕ)
        (reply : Except String (Option Player)),
        (socketDispatch ⟨a, false⟩ false ⟨none, lnzv, pt⟩ reply .state).emits = []
        ∧ (socketDispatch ⟨a, false⟩ false ⟨none, lnzv, pt⟩ reply .state).calls = []) := by
  refine ⟨?_, ?_, ?_, ?_⟩
  · intro a reply
    rfl
  · intro m tr fail cmd
    cases cmd <;> simp [restDispatch, restControl]
  · intro a ramping m reply c hc
    cases c <;> simp_all [socketDispatch, SCmd.isControl]
  · intro a lnzv pt reply
    exact ⟨rfl, rfl⟩

/-- C9 witness: the amended statement at a concrete REST play command and a
concrete silently-dropped socket play command while unconfigured. -/
theorem notConfiguredBehavior_witness :
    (restDispatch ⟨true, false⟩ false ⟨none, 50, none⟩ (.ok none) none .play).status =
      .notConfigured
    ∧ (socketDispatch ⟨true, false⟩ false ⟨none, 50, none⟩ (.ok none) .play).calls = [] :=
  ⟨(notConfiguredBehavior.2.1 ⟨none, 50, none⟩ (.ok none) none .play).1,
   (notConfiguredBehavior.2.2.1 true false ⟨none, 50, none⟩ (.ok none) .play rfl).1⟩

/-- Rounding a cast integer is the identity. -/
lemma jsRound_intCast (n : ℤ) : jsRound ((n : ℤ) : ℚ) = n := by
  unfold jsRound
  rw [add_comm, Int.floor_add_int]
  norm_num

/-- `Number(q) || 0` is the identity on rationals. -/
lemma jsNumOr_zero (q : ℚ) : jsNumOr q 0 = q := by
  unfold jsNumOr
  split <;> simp_all

/-- The derived step count is at least 1 and the ceiling under it is
non-negative. -/
lemma rampParams_steps_max (s : ℤ) (tv cp rts : ℚ) :
    (rampParams s tv cp rts).steps =
      max 1 ⌈(((|(rampParams s tv cp rts).target - s| : ℤ) : ℚ) /
        (((rampParams s tv cp rts).changePerStep : ℤ) : ℚ))⌉ := by
  simp only [rampParams]
  have hcps : (1 : ℤ) ≤ max 1 (jsRound (jsNumOr cp 1)) := le_max_left _ _
  have hccast : (0 : ℚ) < ((max 1 (jsRound (jsNumOr cp 1)) : ℤ) : ℚ) := by
    exact_mod_cast lt_of_lt_of_le one_pos hcps
  have habs : (0 : ℚ) ≤ ((|clamp100 (jsRound (jsNumOr tv 0)) - s| : ℤ) : ℚ) := by
    exact_mod_cast abs_nonneg _
  have hnn : (0 : ℤ) ≤
      ⌈((|clamp100 (jsRound (jsNumOr tv 0)) - s| : ℤ) : ℚ) /
        ((max 1 (jsRound (jsNumOr cp 1)) : ℤ) : ℚ)⌉ :=
    Int.ceil_nonneg (div_nonneg habs hccast.le)
  split
  · omega
  · omega

/-- The volume issued by the completing tick equals the derived target. -/
lemma tickVolume_at_steps (p : RampParams) (h1 : 1 ≤ p.steps)
    (h0 : 0 ≤ p.target) (h100 : p.target ≤ 100) :
    tickVolume p p.steps.toNat = p.target := by
  unfold tickVolume
  have hs : ((p.steps.toNat : ℕ) : ℚ) = ((p.steps : ℤ) : ℚ) := by
    exact_mod_cast congrArg (fun z : ℤ => (z : ℚ)) (Int.toNat_of_nonneg (by omega))
  rw [hs]
  have hne : ((p.steps : ℤ) : ℚ) ≠ 0 := by
    exact_mod_cast (by omega : p.steps ≠ 0)
  rw [div_self hne, mul_one]
  have hsum : ((p.startVolume : ℤ) : ℚ) + ((p.target - p.startVolume : ℤ) : ℚ) =
      ((p.target : ℤ) : ℚ) := by push_cast; ring
  rw [hsum, jsRound_intCast]
  unfold clamp100
  omega

/-- The tick recursion always ends in the completing tick: its last issued
volume is the volume of step `steps`, and its last event is the forced
reconciliation poll. -/
lemma runTicks_last (p : RampParams) :
    ∀ (fuel step : ℕ), (step : ℤ) + fuel = p.steps →
      ((runTicks p step (fuel + 1)).filterMap evSetVol).getLast? =
        some (tickVolume p (step + fuel))
      ∧ (runTicks p step (fuel + 1)).getLast? = some RampEvent.forcePoll := by
  intro fuel
  induction fuel with
  | zero =>
      intro step h
      have hcond : p.steps ≤ (step : ℤ) := by omega
      simp [runTicks, hcond, evSetVol]
  | succ n ih =>
      intro step h
      have hcond : ¬ p.steps ≤ (step : ℤ) := by push_cast at h; omega
      have ihs := ih (step + 1) (by push_cast at h ⊢; omega)
      have hunfold : runTicks p step (n + 1 + 1) =
          RampEvent.setVol (tickVolume p step) :: runTicks p (step + 1) (n + 1) := by
        simp [runTicks, hcond]
      rw [hunfold]
      constructor
      · rw [List.filterMap_cons]
        simp only [evSetVol]
        have hidx : step + 1 + n = step + (n + 1) := by omega
        exact getLast?_cons_of_some (hidx ▸ ihs.1)
      · exact getLast?_cons_of_some ihs.2

/-- C1 (counterexample): the claim derives
`stepDelayMs = max(100, floor(rampTimeSeconds * 1000 / totalSteps))` for
every ramp-volume command; for the command (target 80, changePercent 10,
rampTimeSeconds 0) from start volume 20 the code first defaults the falsy
ramp time to 1 second (`Number(rampTimeSeconds) || 1`), giving
`floor(1000/6) = 166`, while the claim formula gives `max(100, 0) = 100`. -/
theorem rampDelayFormulaCounterexample :
    (rampParams 20 80 10 0).stepDelayMs = 166
    ∧ (rampParamsClaimed 20 80 10 0).stepDelayMs = 100
    ∧ (rampParams 20 80 10 0).stepDelayMs ≠ (rampParamsClaimed 20 80 10 0).stepDelayMs := by
  refine ⟨?_, ?_, ?_⟩ <;>
    norm_num [rampParams, rampParamsClaimed, clamp100, jsRound, jsNumOr]

/-- C1 (amended): for every ramp command with integral target in [0,100],
the derived parameters are `stepSize = max(1, round(changePercent))`,
`totalSteps = max(1, ceil(|target - startVolume| / stepSize))`, and
`stepDelayMs = max(100, floor(rampTime' * 1000 / totalSteps))` where
`rampTime'` is `rampTimeSeconds` defaulted to 1 when it is zero (falsy);
the ramp run to completion ends with a most recent `setVolume` equal to the
clamped target, followed by the forced reconciliation poll; and the
scenario (start 20, target 80, changePercent 10, rampTime 3) yields 6 steps
and a 500 ms step delay. -/
theorem rampDerivationAndCompletion (s t : ℤ) (cp rts : ℚ)
    (h0 : 0 ≤ t) (h100 : t ≤ 100) :
    (rampParams s (t : ℚ) cp rts).target = t
    ∧ (rampParams s (t : ℚ) cp rts).changePerStep = max 1 (jsRound cp)
    ∧ (rampParams s (t : ℚ) cp rts).steps =
        max 1 ⌈((|t - s| : ℤ) : ℚ) / (((rampParams s (t : ℚ) cp rts).changePerStep : ℤ) : ℚ)⌉
    ∧ (rampParams s (t : ℚ) cp rts).stepDelayMs =
        max 100 ⌊(if rts = 0 then 1 else rts) * 1000 /
          (((rampParams s (t : ℚ) cp rts).steps : ℤ) : ℚ)⌋
    ∧ ((rampRun (rampParams s (t : ℚ) cp rts)).filterMap evSetVol).getLast? = some t
    ∧ (rampRun (rampParams s (t : ℚ) cp rts)).getLast? = some RampEvent.forcePoll
    ∧ rampParams 20 80 10 3 =
        { startVolume := 20, target := 80, changePerStep := 10,
          steps := 6, stepDelayMs := 500 } := by
  have htarget : (rampParams s (t : ℚ) cp rts).target = t := by
    simp only [rampParams]
    rw [jsNumOr_zero, jsRound_intCast]
    unfold clamp100
    omega
  have hcps : (rampParams s (t : ℚ) cp rts).changePerStep = max 1 (jsRound cp) := by
    simp only [rampParams]
    unfold jsNumOr
    split
    · rename_i hcp
      rw [hcp]
      norm_num [jsRound]
    · rfl
  have hsteps := rampParams_steps_max s (t : ℚ) cp rts
  rw [htarget] at hsteps
  have hsteps1 : 1 ≤ (rampParams s (t : ℚ) cp rts).steps := by
    rw [hsteps]; exact le_max_left _ _
  have hlast := runTicks_last (rampParams s (t : ℚ) cp rts)
      (rampParams s (t : ℚ) cp rts).steps.toNat 0
      (by rw [Int.toNat_of_nonneg (by omega)]; omega)
  have htv : tickVolume (rampParams s (t : ℚ) cp rts)
      (0 + (rampParams s (t : ℚ) cp rts).steps.toNat) =
      (rampParams s (t : ℚ) cp rts).target := by
    rw [Nat.zero_add]
    exact tickVolume_at_steps _ hsteps1 (by omega) (by omega)
  refine ⟨htarget, hcps, by rw [hsteps], ?_, ?_, ?_, ?_⟩
  · simp only [rampParams, jsNumOr]
  · unfold rampRun
    rw [List.filterMap_cons]
    simp only [evSetVol]
    rw [hlast.1, htv, htarget]
  · unfold rampRun
    exact getLast?_cons_of_some hlast.2
  · norm_num [rampParams, clamp100, jsRound, jsNumOr]

/-- C1 witness: the amended statement at the Scenario C command (start
volume 20, target 80, changePercent 10, rampTime 3 s): 6 steps, 500 ms step
delay, most recent applied volume 80, and the trailing forced poll. -/
theorem rampDerivationAndCompletion_witness :
    ((0 : ℤ) ≤ 80 ∧ (80 : ℤ) ≤ 100)
    ∧ ((rampRun (rampParams 20 ((80 : ℤ) : ℚ) 10 3)).filterMap evSetVol).getLast? =
        some 80
    ∧ (rampRun (rampParams 20 ((80 : ℤ) : ℚ) 10 3)).getLast? = some RampEvent.forcePoll
    ∧ rampParams 20 80 10 3 =
        { startVolume := 20, target := 80, changePerStep := 10,
          steps := 6, stepDelayMs := 500 } :=
  ⟨⟨by norm_num, by norm_num⟩,
   (rampDerivationAndCompletion 20 80 10 3 (by norm_num) (by norm_num)).2.2.2.2.1,
   (rampDerivationAndCompletion 20 80 10 3 (by norm_num) (by norm_num)).2.2.2.2.2.1,
   (rampDerivationAndCompletion 20 80 10 3 (by norm_num) (by norm_num)).2.2.2.2.2.2⟩

/-- C2 (code evaluated at the failing input): run the ramp command
(target 21 from start volume 20, changePercent 10, one step) to completion,
then issue a second ramp command.  On completion the code only nulls the
`rampIntervalId` handle — `clearInterval` is never called — so the
completed session's interval timer remains live (`live.length = 1` with the
handle already `none`), and the second ramp command, finding the handle
`none`, clears nothing and schedules a second interval: two live ramp
timers exist at once, contradicting the claimed invariant. -/
theorem rampTimerLeakExecution :
    (fireTick 0 (rampStartM 20 21 10 3 rampMachine0)).rampIntervalId = none
    ∧ (fireTick 0 (rampStartM 20 21 10 3 rampMachine0)).live.length = 1
    ∧ (rampStartM 20 21 10 3 (fireTick 0 (rampStartM 20 21 10 3 rampMachine0))).live.length = 2
    ∧ (rampStartM 20 21 10 3 (fireTick 0 (rampStartM 20 21 10 3 rampMachine0))).rampIntervalId =
        some 1 := by
  have hceil : ⌈(1 : ℚ) / 10⌉ = 1 := by
    rw [Int.ceil_eq_iff]
    norm_num
  have hp : rampParams 20 21 10 3 =
      { startVolume := 20, target := 21, changePerStep := 10,
        steps := 1, stepDelayMs := 3000 } := by
    norm_num [rampParams, clamp100, jsRound, jsNumOr]
    rw [hceil]
    norm_num
  have hv0 : tickVolume
      { startVolume := 20, target := 21, changePerStep := 10,
        steps := 1, stepDelayMs := 3000 } 0 = 20 := by
    norm_num [tickVolume, clamp100, jsRound]
  have hv1 : tickVolume
      { startVolume := 20, target := 21, changePerStep := 10,
        steps := 1, stepDelayMs := 3000 } 1 = 21 := by
    norm_num [tickVolume, clamp100, jsRound]
  have h1 : rampStartM 20 21 10 3 rampMachine0 =
      { nextTid := 1,
        live := [⟨0, { startVolume := 20, target := 21, changePerStep := 10,
                       steps := 1, stepDelayMs := 3000 }, 1⟩],
        rampIntervalId := some 0, rampingState := true,
        trace := [.emitRamping true, .setVol 20] } := by
    simp only [rampStartM, rampMachine0, hp]
    simp [fireTick, hv0, List.find?]
  have h2 : fireTick 0 (rampStartM 20 21 10 3 rampMachine0) =
      { nextTid := 1,
        live := [⟨0, { startVolume := 20, target := 21, changePerStep := 10,
                       steps := 1, stepDelayMs := 3000 }, 1⟩],
        rampIntervalId := none, rampingState := false,
        trace := [.emitRamping true, .setVol 20, .setVol 21,
                  .emitRamping false, .forcePoll] } := by
    rw [h1]
    simp [fireTick, hv1, List.find?]
  have h3 : rampStartM 20 21 10 3 (fireTick 0 (rampStartM 20 21 10 3 rampMachine0)) =
      { nextTid := 2,
        live := [⟨0, { startVolume := 20, target := 21, changePerStep := 10,
                       steps := 1, stepDelayMs := 3000 }, 1⟩,
                 ⟨1, { startVolume := 20, target := 21, changePerStep := 10,
                       steps := 1, stepDelayMs := 3000 }, 1⟩],
        rampIntervalId := some 1, rampingState := true,
        trace := [.emitRamping true, .setVol 20, .setVol 21,
                  .emitRamping false, .forcePoll, .emitRamping true, .setVol 20] } := by
    rw [h2]
    simp only [rampStartM, hp]
    simp [fireTick, hv0, List.find?]
  exact ⟨by simp [h2], by simp [h2], by simp [h3], by simp [h3]⟩

/-- C10 witness: the invariant at the initial state, where
`lastNonZeroVolume = 50`. -/
theorem lastNonZeroVolumePositive_witness :
    (0 : ℤ) < 50 ∧ unmuteVolume 50 = 50
    ∧ restDispatch ⟨true, true⟩ false ⟨none, 50, none⟩ (.ok none) none .unmute =
        ⟨.accepted, [.setVolume ((50 : ℤ) : ℚ)]⟩ :=
  ⟨(lastNonZeroVolumePositive 50 ReachLNZV.init).1,
   (lastNonZeroVolumePositive 50 ReachLNZV.init).2.1,
   (lastNonZeroVolumePositive 50 ReachLNZV.init).2.2.2 ⟨none, 50, none⟩ (.ok none) rfl⟩

end SpotifyBridge
